import Mathlib

/-!
# Verification of the django-newsletter submission and bounce pipeline

Shallow embedding of the core of `newsletter/models.py` and
`newsletter/bounces.py`: the VERP bounce-address decoder, the IMAP bounce
classifier, the subscription state machine, the suppression query and the
submission engine.  Python strings are embedded as `List Char`; machine
state (database rows, mailbox effects) is passed explicitly; Python
exceptions are embedded as `Except PyExc`.
-/

/-- Python exception classes that the embedded code can raise. -/
inductive PyExc where
  /-- An `assert` statement whose condition is falsy. -/
  | assertionError : PyExc
  /-- `TypeError`, e.g. `re.match` applied to `None`. -/
  | typeError : PyExc
  /-- An exception escaping template rendering inside `send_message`
      (raised before the `try` block guarding `message.send()`). -/
  | templateError : PyExc
  /-- `django.core.exceptions.ValidationError` (never actually raised by
      the embedded code; used to state spec claims about error classes). -/
  | validationError : PyExc
deriving DecidableEq, Repr

/-! ## Python string helpers (on `List Char`) -/

/-- Python truthiness of an optional string value: `None` and the empty
string `''` are falsy, any other string is truthy. -/
def truthyS : Option (List Char) → Bool
  | none => false
  | some l => !l.isEmpty

/-- Python `str.lower()` (ASCII fragment, as used by `__iexact` lookups). -/
def pyLower (l : List Char) : List Char := l.map Char.toLower

/-- Python `str.strip()`: drop leading and trailing whitespace. -/
def pyStrip (l : List Char) : List Char :=
  ((l.dropWhile Char.isWhitespace).reverse.dropWhile Char.isWhitespace).reverse

/-- Tests `pat.isPrefixOf` at every position: Python `pat in l`
(substring containment). -/
def containsSub (pat : List Char) : List Char → Bool
  | [] => pat.isEmpty
  | c :: rest => pat.isPrefixOf (c :: rest) || containsSub pat rest

/-- The literal `'rfc822;'` searched for in recovered addresses. -/
def rfc822Lit : List Char := "rfc822;".data

/-- Fuel-driven helper for `removeRfc`; the fuel starts at the list length
and each step consumes at least one character, so it never runs out. -/
def removeRfcAux : Nat → List Char → List Char
  | _, [] => []
  | 0, l => l
  | Nat.succ n, c :: rest =>
    if rfc822Lit.isPrefixOf (c :: rest) then
      removeRfcAux n (rest.drop 6)
    else
      c :: removeRfcAux n rest

/-- Python `addr.replace('rfc822;', '')`: removes every (left-to-right,
non-overlapping) occurrence of `'rfc822;'`.  When the 7-character pattern
matches at the head, the scan resumes after it (`drop 6` of the tail). -/
def removeRfc (l : List Char) : List Char := removeRfcAux l.length l

/-! ## VERP codec (`newsletter/bounces.py`)

The source matches bounce addresses against

    verp_re = re.compile(r'[^\+]+\+(?P<user>[^=]+)=(?P<domain>[^@]+)@.+')

with `re.match` (anchored at the start only).  Because each repeated class
excludes the very character that terminates it, the regex engine has no
backtracking alternatives: the leading `[^+]+` group is exactly the text
before the first `+` (and must be non-empty), `user` is the text from there
to the next `=` (non-empty, hence free of `=`), `domain` the text to the
next `@` (non-empty, free of `@`), and the trailing `.+` requires at least
one character after that `@` whose first character is not a newline (`.`
does not match `'\n'` in Python's default mode; `re.match` does not anchor
the end).  `verpMatch` is that match function, returning the `user` and
`domain` groups. -/

/-- Split a list at the first occurrence of `c`: returns `(before, after)`
with `l = before ++ c :: after` and `c ∉ before`, or `none` if `c ∉ l`. -/
def splitFirst (c : Char) : List Char → Option (List Char × List Char)
  | [] => none
  | x :: xs =>
    if x = c then some ([], xs)
    else (splitFirst c xs).map (fun p => (x :: p.1, p.2))

/-- Embedding of `verp_re.match(address)` followed by extraction of the
`user` and `domain` groups (`newsletter/bounces.py` line 15). -/
def verpMatch (s : List Char) : Option (List Char × List Char) :=
  match splitFirst '+' s with
  | none => none
  | some (a, rest) =>
    if a = [] then none else
    match splitFirst '=' rest with
    | none => none
    | some (u, rest2) =>
      if u = [] then none else
      match splitFirst '@' rest2 with
      | none => none
      | some (d, t) =>
        if d = [] then none else
        match t with
        | [] => none
        | c :: _ => if c = '\n' then none else some (u, d)

example : verpMatch ("bounce+bob=example.org@example.net".data) =
    some ("bob".data, "example.org".data) := by decide
example : verpMatch ("no-verp@example.net".data) = none := by decide
example : verpMatch ("+bob=example.org@x".data) = none := by decide
example : verpMatch ("a+u=d@".data) = none := by decide

/-! ## Database rows -/

/-- A row of the auth user table; only the fields used by the embedded code
(`user__email__iexact` joins on the user id and compares the email). -/
structure UserRow where
  id : Nat
  email : List Char
deriving DecidableEq, Repr

/-- A `Subscription` row (`newsletter/models.py`).  `pk` is `None` until the
row is persisted; `user` is the nullable foreign key to the auth user,
`email_field` the nullable standalone e-mail column; `newsletter` the id of
the owning newsletter.  Timestamps are integer clock values. -/
structure Subscription where
  pk : Option Nat
  user : Option Nat
  email_field : Option (List Char)
  newsletter : Nat
  subscribed : Bool
  unsubscribed : Bool
  subscribe_date : Option Int
  unsubscribe_date : Option Int
deriving DecidableEq, Repr

/-- A `Bounce` row (`newsletter/models.py`, migration `0004_bounce_model`):
foreign key to a subscription, hard/soft flag, recovered SMTP status code
and the raw message content. -/
structure BounceRow where
  subscription : Nat
  hard : Bool
  status_code : List Char
  content : List Char
deriving DecidableEq, Repr

/-! ## Bounce classification (`newsletter/bounces.py`) -/

/-- Source constant `MAILBOX_FULL = '5.2.2'` (`newsletter/bounces.py` line 17). -/
def MAILBOX_FULL : List Char := "5.2.2".data

/-- Classification `hard = status.startswith('5') and status != MAILBOX_FULL`
(`newsletter/bounces.py` line 79). -/
def bounceHard (status : List Char) : Bool :=
  List.isPrefixOf ['5'] status && !(status == MAILBOX_FULL)

/-! ## Bounce message model

`check_bounces` inspects a parsed bounce mail through: the `To` header
(`None` when absent), the flattened `msgobj.walk()` sequence of MIME parts
(of which only the content type and, for `message/delivery-status` parts,
the `part.walk()` sequence of sub-entities with their `Original-Recipient`,
`Final-Recipient` and `Status` fields are consulted), and the raw bytes
stored into `Bounce.content`. -/

/-- A sub-entity yielded by `part.walk()` of a delivery-status part, with
the three header fields the scanner reads (`None` when the header is
absent, `in subpart` being the presence test). -/
structure DSSubpart where
  original_recipient : Option (List Char)
  final_recipient : Option (List Char)
  status : Option (List Char)
deriving DecidableEq, Repr

/-- A MIME part yielded by `msgobj.walk()`: whether its content type is
`message/delivery-status`, and its own `walk()` sequence. -/
structure MsgPart where
  is_delivery_status : Bool
  subparts : List DSSubpart
deriving DecidableEq, Repr

/-- A bounce message as seen by `check_bounces`. -/
structure BounceMsg where
  toHeader : Option (List Char)
  parts : List MsgPart
  raw : List Char
deriving DecidableEq, Repr

/-- Cleanup `if addr and 'rfc822;' in addr: addr = addr.replace('rfc822;', '')`
(`newsletter/bounces.py` lines 67-68) applied to a just-assigned string
value. -/
def rfcCleanVal (v : List Char) : List Char :=
  if !v.isEmpty && containsSub rfc822Lit v then removeRfc v else v

/-- One subpart's effect on `addr` (`newsletter/bounces.py` lines 62-68):
when `addr` is still falsy, take `Original-Recipient` if present, else
`Final-Recipient` if present (each `.strip()`ped), then remove the
`'rfc822;'` occurrences; when `addr` is already truthy it is untouched. -/
def subpartAddrStep (addr : Option (List Char)) (sp : DSSubpart) :
    Option (List Char) :=
  if truthyS addr then addr
  else
    match sp.original_recipient with
    | some v => some (rfcCleanVal (pyStrip v))
    | none =>
      match sp.final_recipient with
      | some v => some (rfcCleanVal (pyStrip v))
      | none => addr

/-- One subpart's effect on `status` (`newsletter/bounces.py` lines 69-70):
`if 'Status' in subpart: status = subpart['Status']`. -/
def subpartStatusStep (status : Option (List Char)) (sp : DSSubpart) :
    Option (List Char) :=
  match sp.status with
  | some v => some v
  | none => status

/-- The inner `for subpart in part.walk()` loop (`newsletter/bounces.py`
lines 61-72), which stops early once both `addr` and `status` are truthy. -/
def subpartLoop (addr status : Option (List Char)) :
    List DSSubpart → Option (List Char) × Option (List Char)
  | [] => (addr, status)
  | sp :: rest =>
    let addr' := subpartAddrStep addr sp
    let status' := subpartStatusStep status sp
    if truthyS addr' && truthyS status' then (addr', status')
    else subpartLoop addr' status' rest

/-- Address/status recovery for one message (`newsletter/bounces.py` lines
51-73): VERP-decode the `To` header (raising `TypeError` when the header is
absent, since `re.match` is applied to `None`), then run the subpart loop
over the first `message/delivery-status` part, if any.  The outer
`for part in msgobj.walk()` breaks after the first delivery-status part. -/
def extractAddrStatus (m : BounceMsg) :
    Except PyExc (Option (List Char) × Option (List Char)) :=
  match m.toHeader with
  | none => Except.error PyExc.typeError
  | some t =>
    let addr0 := match verpMatch t with
      | some (u, d) => some (u ++ '@' :: d)
      | none => none
    match m.parts.find? (fun p => p.is_delivery_status) with
    | none => Except.ok (addr0, none)
    | some part => Except.ok (subpartLoop addr0 none part.subparts)

/-- The `user__email__iexact` join: the email of the linked user row, if any. -/
def userEmailLookup (users : List UserRow) (uid : Nat) : Option (List Char) :=
  (users.find? (fun u => u.id == uid)).map (fun u => u.email)

/-- The filter `Q(user__email__iexact=addr) | Q(email_field__iexact=addr)`
(`newsletter/bounces.py` lines 77-78); `NULL` columns never match. -/
def matchesAddr (users : List UserRow) (addr : List Char)
    (s : Subscription) : Bool :=
  (match s.user with
   | some uid =>
     match userEmailLookup users uid with
     | some e => pyLower e == pyLower addr
     | none => false
   | none => false)
  ||
  (match s.email_field with
   | some e => pyLower e == pyLower addr
   | none => false)

/-- Everything `check_bounces` does with one fetched message
(`newsletter/bounces.py` lines 50-87): the Python exception that escaped
(aborting the whole scan), the `Bounce` rows created, whether a copy to the
archive folder was attempted, and whether the message was flagged
`\Deleted` (which happens only when the copy succeeded — `copyOk`). -/
structure ProcessResult where
  error : Option PyExc
  bounces : List BounceRow
  copyAttempted : Bool
  deleted : Bool
deriving DecidableEq, Repr

/-- Per-message processing of `check_bounces`: recover address and status;
`continue` (skip, leaving the message in the inbox) when either is falsy;
otherwise create one `Bounce` per matching subscription and move the
message aside. -/
def processMessage (users : List UserRow) (subs : List Subscription)
    (copyOk : Bool) (m : BounceMsg) : ProcessResult :=
  match extractAddrStatus m with
  | Except.error e =>
    { error := some e, bounces := [], copyAttempted := false, deleted := false }
  | Except.ok (addr, status) =>
    if !(truthyS addr && truthyS status) then
      { error := none, bounces := [], copyAttempted := false, deleted := false }
    else
      let a := addr.getD []
      let st := status.getD []
      let matched := subs.filter (matchesAddr users a)
      let bs := matched.map (fun s =>
        { subscription := s.pk.getD 0, hard := bounceHard st,
          status_code := st, content := m.raw : BounceRow })
      { error := none, bounces := bs, copyAttempted := true, deleted := copyOk }

/-! ## Subscription state machine (`newsletter/models.py`) -/

/-- Python truthiness of the `user` foreign key (a model instance is always
truthy, `None` is falsy). -/
def Subscription.userTruthy (s : Subscription) : Bool := s.user.isSome

/-- Python truthiness of `email_field` (`None` and `''` are falsy). -/
def Subscription.emailTruthy (s : Subscription) : Bool := truthyS s.email_field

/-- Helper `Subscription._subscribe` (`newsletter/models.py` lines 239-248). -/
def Subscription.doSubscribe (s : Subscription) (t : Int) : Subscription :=
  { s with subscribe_date := some t, subscribed := true, unsubscribed := false }

/-- Helper `Subscription._unsubscribe` (`newsletter/models.py` lines 250-259). -/
def Subscription.doUnsubscribe (s : Subscription) (t : Int) : Subscription :=
  { s with subscribed := false, unsubscribed := true, unsubscribe_date := some t }

/-- Method `Subscription.save` (`newsletter/models.py` lines 261-314).  `old` is
the currently persisted row for `s.pk` (`None` when the pk lookup finds no
row, in which case the `count() == 1` assert fires); `t` is `now()`.  The
returned row is the state written by `super().save()`; on error nothing is
written. -/
def Subscription.save (s : Subscription) (old : Option Subscription)
    (t : Int) : Except PyExc Subscription :=
  if !(s.userTruthy || s.emailTruthy) then Except.error PyExc.assertionError
  else if !((s.userTruthy && !s.emailTruthy) ||
            (s.emailTruthy && !s.userTruthy)) then
    Except.error PyExc.assertionError
  else
    match s.pk with
    | some _ =>
      match old with
      | none => Except.error PyExc.assertionError
      | some prev =>
        if (s.subscribed && !prev.subscribed) ||
           (prev.unsubscribed && !s.unsubscribed) then
          Except.ok (s.doSubscribe t)
        else if (s.unsubscribed && !prev.unsubscribed) ||
                (prev.subscribed && !s.subscribed) then
          Except.ok (s.doUnsubscribe t)
        else Except.ok s
    | none =>
      if s.subscribed then Except.ok (s.doSubscribe t)
      else if s.unsubscribed then Except.ok (s.doUnsubscribe t)
      else Except.ok s

/-- The three actions accepted by `Subscription.update`. -/
inductive SubAction where
  | subscribe : SubAction
  | update : SubAction
  | unsubscribe : SubAction
deriving DecidableEq, Repr

/-- Method `Subscription.update` (`newsletter/models.py` lines 212-237): set the
target flag according to the action, then `save()`. -/
def Subscription.update (s : Subscription) (action : SubAction)
    (old : Option Subscription) (t : Int) : Except PyExc Subscription :=
  match action with
  | SubAction.subscribe => Subscription.save { s with subscribed := true } old t
  | SubAction.update => Subscription.save { s with subscribed := true } old t
  | SubAction.unsubscribe =>
    Subscription.save { s with unsubscribed := true } old t

/-- Requesting an action on a freshly fetched persisted subscription: the
in-memory object equals the persisted row, so `save` diffs against the row
itself. -/
def Subscription.updatePersisted (rec : Subscription) (action : SubAction)
    (t : Int) : Except PyExc Subscription :=
  Subscription.update rec action (some rec) t

/-! ## Suppression query (`newsletter/models.py` lines 158-166) -/

/-- The `num_hard_bounces` annotation: `Sum(Case(When(bounce__hard=True,
then=1), default=0))` over the subscription's bounce rows.  The aggregate
is computed over the rows of the `LEFT OUTER JOIN` with the bounce table;
a subscription with no bounce rows joins a single all-`NULL` row for which
the `Case` yields the default `0`, so the sum is `0`. -/
def numHardBounces (bounces : List BounceRow) (s : Subscription) : Nat :=
  ((bounces.filter (fun b => s.pk == some b.subscription)).map
    (fun b => if b.hard then 1 else 0)).sum

/-- Query `SubscribedQuerySet.subscribed`: annotate with `num_hard_bounces` and
`filter(subscribed=True, num_hard_bounces=0)`. -/
def SubscribedQuerySet.subscribed (qs : List Subscription)
    (bounces : List BounceRow) : List Subscription :=
  qs.filter (fun s => s.subscribed && numHardBounces bounces s == 0)

/-- Method `Newsletter.get_subscriptions` (`newsletter/models.py` lines 145-148):
filter the subscription table by newsletter, then apply `subscribed()`. -/
def Newsletter.get_subscriptions (nl : Nat) (table : List Subscription)
    (bounces : List BounceRow) : List Subscription :=
  SubscribedQuerySet.subscribed
    (table.filter (fun s => s.newsletter == nl)) bounces

/-! ## Message default newsletter (`newsletter/models.py`) -/

/-- Method `Newsletter.get_default` (`newsletter/models.py` lines 150-155):
`cls.objects.all()[0]`, or `None` on `IndexError`.  The newsletter table is
modelled as the list of newsletter primary keys in the query's natural
order (the model declares no default ordering). -/
def Newsletter.get_default (newsletters : List Nat) : Option Nat :=
  newsletters.head?

/-- A `Message` row; only the fields `Message.save` touches or preserves
are relevant: the primary key, the newsletter foreign key (nullable
in-memory, since `get_default` can return `None`) and a representative
content field. -/
structure MessageRow where
  pk : Option Nat
  newsletter : Option Nat
  slug : List Char
deriving DecidableEq, Repr

/-- Method `Message.save` (`newsletter/models.py` lines 613-616): on first save
(`pk is None`) the newsletter is overwritten with `Newsletter.get_default()`;
otherwise the row is written unchanged. -/
def Message.save (m : MessageRow) (newsletters : List Nat) : MessageRow :=
  if m.pk.isNone then
    { m with newsletter := Newsletter.get_default newsletters }
  else m

/-! ## Submission engine (`newsletter/models.py` lines 655-848) -/

/-- The persisted flags and schedule of a `Submission` row. -/
structure SubmissionState where
  prepared : Bool
  sent : Bool
  sending : Bool
  publish_date : Int
deriving DecidableEq, Repr

/-- Outcome of `send_message` for one subscriber: `ok` (rendered and sent),
`sendError` (`message.send()` raised; caught and logged inside
`send_message`, lines 749-764), or `renderError` (template rendering raised
before the `try` block, propagating out of `send_message`). -/
inductive SendOutcome where
  | ok : SendOutcome
  | sendError : SendOutcome
  | renderError : SendOutcome
deriving DecidableEq, Repr

/-- The `for subscription in subscriptions` loop of `Submission.submit`
(lines 707-708): returns the loop's outcome and the list of subscribers for
which the transport send was actually attempted (a `sendError` is attempted
and swallowed; a `renderError` aborts the loop before that send). -/
def sendLoop {σ : Type} (outcome : σ → SendOutcome) :
    List σ → Except PyExc Unit × List σ
  | [] => (Except.ok (), [])
  | s :: rest =>
    match outcome s with
    | SendOutcome.renderError => (Except.error PyExc.templateError, [])
    | _ =>
      let lp := sendLoop outcome rest
      (lp.1, s :: lp.2)

/-- Result of one `Submission.submit` call: the call's outcome (`error` if
an exception propagated out), the finally-persisted row, the successive
states written by `self.save()` in order, and the subscribers whose
transport send was attempted. -/
structure SubmitResult (σ : Type) where
  result : Except PyExc Unit
  final : SubmissionState
  saves : List SubmissionState
  attempted : List σ
deriving Repr

/-- Method `Submission.submit` (`newsletter/models.py` lines 692-713): assert the
publish date is strictly past, persist `sending=True`, run the send loop
inside `try`, set `sent=True` on loop completion, and in the `finally`
block reset `sending=False` and persist. -/
def Submission.submit {σ : Type} (st : SubmissionState) (t : Int)
    (subs : List σ) (outcome : σ → SendOutcome) : SubmitResult σ :=
  if st.publish_date < t then
    let st1 := { st with sending := true }
    let lp := sendLoop outcome subs
    match lp.1 with
    | Except.ok _ =>
      let fin := { st1 with sent := true, sending := false }
      { result := Except.ok (), final := fin,
        saves := [st1, fin], attempted := lp.2 }
    | Except.error e =>
      let fin := { st1 with sending := false }
      { result := Except.error e, final := fin,
        saves := [st1, fin], attempted := lp.2 }
  else
    { result := Except.error PyExc.assertionError, final := st,
      saves := [], attempted := [] }

/-- Observable calls made by `Submission.submit_queue`. -/
inductive QueueEvent where
  | submitCalled : SubmissionState → QueueEvent
  | bounceScan : QueueEvent
deriving DecidableEq, Repr

/-- The `for submission in todo` loop of `submit_queue`
(`newsletter/models.py` lines 773-774): call `submit()` on each row in
order; an exception propagating out of a `submit()` call aborts the
remaining iterations and propagates.  `subs` and `outcome` give each
submission its subscriber list and per-subscriber send outcomes.  Returns
the trace of `submit()` calls made and the loop's outcome. -/
def queueLoop {σ : Type} (t : Int) (subs : SubmissionState → List σ)
    (outcome : SubmissionState → σ → SendOutcome) :
    List SubmissionState → List QueueEvent × Except PyExc Unit
  | [] => ([], Except.ok ())
  | s :: rest =>
    match (Submission.submit s t (subs s) (outcome s)).result with
    | Except.ok _ =>
      let lp := queueLoop t subs outcome rest
      (QueueEvent.submitCalled s :: lp.1, lp.2)
    | Except.error e => ([QueueEvent.submitCalled s], Except.error e)

/-- Method `Submission.submit_queue` (`newsletter/models.py` lines
766-776) as the trace of calls it makes plus the invocation's outcome:
`submit()` on each row of `filter(prepared=True, sent=False,
sending=False, publish_date__lt=now())` in query order, then — only when
no `submit()` call raised — one `check_bounces()`; an exception from
`submit()` aborts the loop and the bounce scan is never reached. -/
def Submission.submit_queue {σ : Type} (table : List SubmissionState)
    (t : Int) (subs : SubmissionState → List σ)
    (outcome : SubmissionState → σ → SendOutcome) :
    List QueueEvent × Except PyExc Unit :=
  let todo := table.filter (fun s =>
    s.prepared && !s.sent && !s.sending && decide (s.publish_date < t))
  match queueLoop t subs outcome todo with
  | (evs, Except.ok _) => (evs ++ [QueueEvent.bounceScan], Except.ok ())
  | (evs, Except.error e) => (evs, Except.error e)

/-- The mutual-exclusion condition asserted by `Subscription.save`
(`newsletter/models.py` lines 272-274): exactly one of the user link and
the standalone email is (truthily) set. -/
def exactlyOneIdentity (s : Subscription) : Bool :=
  (s.userTruthy && !s.emailTruthy) || (s.emailTruthy && !s.userTruthy)

/-- The spec's reading of the address-type cleanup: strip one leading
`'rfc822;'` prefix when the address starts with it.  Compare with
`rfcCleanVal`, which embeds the code's `replace` of every occurrence
anywhere in the string. -/
def specStripLeadingRfc (v : List Char) : List Char :=
  if rfc822Lit.isPrefixOf v then v.drop rfc822Lit.length else v

example : removeRfc ("rfc822;bob@host.org".data) = "bob@host.org".data := by
  decide
example : removeRfc ("a@rfc822;b".data) = "a@b".data := by decide

/-! ## Helper lemmas -/

/-- When no subscriber's rendering raises, the send loop finishes normally
and attempts the transport send for every subscriber (failed transport
sends included). -/
theorem sendLoop_no_renderError {σ : Type} (outcome : σ → SendOutcome)
    (subs : List σ) (h : ∀ s ∈ subs, outcome s ≠ SendOutcome.renderError) :
    sendLoop outcome subs = (Except.ok (), subs) := by
  induction subs with
  | nil => rfl
  | cons s rest ih =>
    have hs : outcome s ≠ SendOutcome.renderError :=
      h s (List.mem_cons_self s rest)
    have hrest : ∀ x ∈ rest, outcome x ≠ SendOutcome.renderError :=
      fun x hx => h x (List.mem_cons_of_mem s hx)
    cases ho : outcome s with
    | renderError => exact absurd ho hs
    | ok => simp [sendLoop, ho, ih hrest]
    | sendError => simp [sendLoop, ho, ih hrest]

/-- A due submission whose sends raise no render error submits without a
propagating exception. -/
theorem submit_result_ok_of_no_renderError {σ : Type}
    (st : SubmissionState) (t : Int) (subs : List σ)
    (outcome : σ → SendOutcome) (h : st.publish_date < t)
    (hall : ∀ x ∈ subs, outcome x ≠ SendOutcome.renderError) :
    (Submission.submit st t subs outcome).result = Except.ok () := by
  simp [Submission.submit, h, sendLoop_no_renderError outcome subs hall]

/-- When every listed submission is due and none of its sends raises a
render error, the queue loop calls `submit()` on every row in order and
finishes normally. -/
theorem queueLoop_eq_map_of_ok {σ : Type} (t : Int)
    (subs : SubmissionState → List σ)
    (outcome : SubmissionState → σ → SendOutcome)
    (l : List SubmissionState) (hdue : ∀ s ∈ l, s.publish_date < t)
    (hall : ∀ s ∈ l, ∀ x ∈ subs s, outcome s x ≠ SendOutcome.renderError) :
    queueLoop t subs outcome l =
      (l.map QueueEvent.submitCalled, Except.ok ()) := by
  induction l with
  | nil => rfl
  | cons s rest ih =>
    have hok := submit_result_ok_of_no_renderError s t (subs s) (outcome s)
      (hdue s (List.mem_cons_self s rest))
      (hall s (List.mem_cons_self s rest))
    have ihh := ih (fun x hx => hdue x (List.mem_cons_of_mem s hx))
      (fun x hx => hall x (List.mem_cons_of_mem s hx))
    simp [queueLoop, hok, ihh]

/-- The queue loop itself never emits a `bounceScan` event. -/
theorem bounceScan_not_in_queueLoop {σ : Type} (t : Int)
    (subs : SubmissionState → List σ)
    (outcome : SubmissionState → σ → SendOutcome)
    (l : List SubmissionState) :
    QueueEvent.bounceScan ∉ (queueLoop t subs outcome l).1 := by
  induction l with
  | nil => simp [queueLoop]
  | cons s rest ih =>
    unfold queueLoop
    cases h : (Submission.submit s t (subs s) (outcome s)).result with
    | ok u => simp [h, ih]
    | error e => simp [h]

/-- Characterization of `splitFirst`: it returns `(pre, post)` exactly when the
input decomposes around the first occurrence of `c`. -/
theorem splitFirst_eq_some_iff (c : Char) :
    ∀ (l pre post : List Char),
      splitFirst c l = some (pre, post) ↔
        (c ∉ pre ∧ l = pre ++ c :: post) := by
  intro l
  induction l with
  | nil =>
    intro pre post
    cases pre <;> simp [splitFirst]
  | cons x xs ih =>
    intro pre post
    by_cases hx : x = c
    · simp only [splitFirst, if_pos hx, Option.some.injEq, Prod.mk.injEq]
      constructor
      · rintro ⟨rfl, rfl⟩
        exact ⟨by simp, by simp [hx]⟩
      · rintro ⟨hnc, heq⟩
        cases pre with
        | nil =>
          simp only [List.nil_append, List.cons.injEq] at heq
          exact ⟨rfl, heq.2⟩
        | cons p ps =>
          simp only [List.cons_append, List.cons.injEq] at heq
          exact absurd (List.mem_cons.mpr (Or.inl (hx.symm.trans heq.1)))
            hnc
    · simp only [splitFirst, if_neg hx, Option.map_eq_some']
      constructor
      · rintro ⟨⟨q1, q2⟩, hq, heq⟩
        rcases (ih q1 q2).mp hq with ⟨hnc, rfl⟩
        simp only [Prod.mk.injEq] at heq
        rcases heq with ⟨rfl, rfl⟩
        refine ⟨?_, rfl⟩
        intro hmem
        rcases List.mem_cons.mp hmem with h | h
        · exact hx h.symm
        · exact hnc h
      · rintro ⟨hnc, heq⟩
        cases pre with
        | nil =>
          simp only [List.nil_append, List.cons.injEq] at heq
          exact absurd heq.1 hx
        | cons p ps =>
          simp only [List.cons_append, List.cons.injEq] at heq
          rcases heq with ⟨rfl, rfl⟩
          have hncs : c ∉ ps := fun h => hnc (List.mem_cons_of_mem _ h)
          exact ⟨(ps, post), (ih ps post).mpr ⟨hncs, rfl⟩, rfl⟩

/-! ## Claims -/

/-- C1: when `publish_date` is strictly past, `submit()` attempts the send
for every subscriber as long as no per-subscriber failure escapes
`send_message` (transport failures are caught there), finishes with
`sent=true`, and — whether or not the loop raised — the finally block
leaves `sending=false` in the last persisted state. -/
theorem submit_batch_isolation {σ : Type} (st : SubmissionState) (t : Int)
    (subs : List σ) (outcome : σ → SendOutcome)
    (h : st.publish_date < t) :
    ((∀ s ∈ subs, outcome s ≠ SendOutcome.renderError) →
      (Submission.submit st t subs outcome).result = Except.ok () ∧
      (Submission.submit st t subs outcome).attempted = subs ∧
      (Submission.submit st t subs outcome).final.sent = true) ∧
    (Submission.submit st t subs outcome).final.sending = false ∧
    (Submission.submit st t subs outcome).saves.getLast? =
      some (Submission.submit st t subs outcome).final := by
  refine ⟨fun hall => ?_, ?_, ?_⟩
  · have hl := sendLoop_no_renderError outcome subs hall
    simp [Submission.submit, h, hl]
  · rcases heq : sendLoop outcome subs with ⟨r, att⟩
    cases r with
    | ok u => simp [Submission.submit, h, heq]
    | error e => simp [Submission.submit, h, heq]
  · rcases heq : sendLoop outcome subs with ⟨r, att⟩
    cases r with
    | ok u => simp [Submission.submit, h, heq]
    | error e => simp [Submission.submit, h, heq]

/-- Witness for C1: three subscribers where the transport send for
subscriber 2 raises; 1, 2 and 3 are all attempted, `sent` becomes true and
`sending` ends false. -/
theorem submit_batch_isolation_witness :
    ((0 : Int) < 1 ∧
      ∀ s ∈ [1, 2, 3],
        (fun n : Nat =>
          if n = 2 then SendOutcome.sendError else SendOutcome.ok) s ≠
          SendOutcome.renderError) ∧
    ((Submission.submit
        { prepared := true, sent := false, sending := false,
          publish_date := 0 } 1 [1, 2, 3]
        (fun n : Nat =>
          if n = 2 then SendOutcome.sendError else SendOutcome.ok)).result =
        Except.ok () ∧
      (Submission.submit
        { prepared := true, sent := false, sending := false,
          publish_date := 0 } 1 [1, 2, 3]
        (fun n : Nat =>
          if n = 2 then SendOutcome.sendError else SendOutcome.ok)).attempted =
        [1, 2, 3] ∧
      (Submission.submit
        { prepared := true, sent := false, sending := false,
          publish_date := 0 } 1 [1, 2, 3]
        (fun n : Nat =>
          if n = 2 then SendOutcome.sendError else SendOutcome.ok)).final.sent =
        true) ∧
    (Submission.submit
        { prepared := true, sent := false, sending := false,
          publish_date := 0 } 1 [1, 2, 3]
        (fun n : Nat =>
          if n = 2 then SendOutcome.sendError else SendOutcome.ok)).final.sending =
      false :=
  ⟨⟨by decide, by decide⟩,
    (submit_batch_isolation _ _ _ _ (by decide)).1 (by decide),
    ((submit_batch_isolation _ _ _ _ (by decide)).2).1⟩

/-- C6: when `publish_date` is not strictly past, `submit()` fails on the
assert before any send and before any save: no transport send is
attempted, nothing is persisted, and the row is unchanged. -/
theorem submit_future_guard {σ : Type} (st : SubmissionState) (t : Int)
    (subs : List σ) (outcome : σ → SendOutcome)
    (h : ¬ st.publish_date < t) :
    (Submission.submit st t subs outcome).result =
        Except.error PyExc.assertionError ∧
    (Submission.submit st t subs outcome).final = st ∧
    (Submission.submit st t subs outcome).saves = [] ∧
    (Submission.submit st t subs outcome).attempted = [] := by
  simp [Submission.submit, h]

/-- Witness for C6: a submission published at time 5 submitted at time 3
fails the guard, with no sends and no saves. -/
theorem submit_future_guard_witness :
    ¬ ((5 : Int) < 3) ∧
    ((Submission.submit
        { prepared := true, sent := false, sending := false,
          publish_date := 5 } 3 [1, 2]
        (fun _ : Nat => SendOutcome.ok)).result =
        Except.error PyExc.assertionError ∧
      (Submission.submit
        { prepared := true, sent := false, sending := false,
          publish_date := 5 } 3 [1, 2]
        (fun _ : Nat => SendOutcome.ok)).final =
        { prepared := true, sent := false, sending := false,
          publish_date := 5 } ∧
      (Submission.submit
        { prepared := true, sent := false, sending := false,
          publish_date := 5 } 3 [1, 2]
        (fun _ : Nat => SendOutcome.ok)).saves = [] ∧
      (Submission.submit
        { prepared := true, sent := false, sending := false,
          publish_date := 5 } 3 [1, 2]
        (fun _ : Nat => SendOutcome.ok)).attempted = []) :=
  ⟨by decide, submit_future_guard _ _ _ _ (by decide)⟩

/-- Counterexample for C5: when a render error escapes the first due
submission's `submit()`, the queue loop aborts — the second submission,
though it satisfies every selection criterion, is never submitted — and
`check_bounces()` is never reached: the exception propagates out of
`submit_queue` instead. -/
theorem submit_queue_abort_counterexample :
    (({ prepared := true, sent := false, sending := false,
        publish_date := -1 } : SubmissionState) ∈
        ([{ prepared := true, sent := false, sending := false,
            publish_date := 0 },
          { prepared := true, sent := false, sending := false,
            publish_date := -1 }] : List SubmissionState) ∧
      ({ prepared := true, sent := false, sending := false,
         publish_date := -1 } : SubmissionState).prepared = true ∧
      ({ prepared := true, sent := false, sending := false,
         publish_date := -1 } : SubmissionState).sent = false ∧
      ({ prepared := true, sent := false, sending := false,
         publish_date := -1 } : SubmissionState).sending = false ∧
      ({ prepared := true, sent := false, sending := false,
         publish_date := -1 } : SubmissionState).publish_date < 1) ∧
    QueueEvent.submitCalled
        { prepared := true, sent := false, sending := false,
          publish_date := -1 } ∉
      (Submission.submit_queue
        [{ prepared := true, sent := false, sending := false,
           publish_date := 0 },
         { prepared := true, sent := false, sending := false,
           publish_date := -1 }] 1 (fun _ => ([1] : List Nat))
        (fun _ _ => SendOutcome.renderError)).1 ∧
    QueueEvent.bounceScan ∉
      (Submission.submit_queue
        [{ prepared := true, sent := false, sending := false,
           publish_date := 0 },
         { prepared := true, sent := false, sending := false,
           publish_date := -1 }] 1 (fun _ => ([1] : List Nat))
        (fun _ _ => SendOutcome.renderError)).1 ∧
    (Submission.submit_queue
        [{ prepared := true, sent := false, sending := false,
           publish_date := 0 },
         { prepared := true, sent := false, sending := false,
           publish_date := -1 }] 1 (fun _ => ([1] : List Nat))
        (fun _ _ => SendOutcome.renderError)).2 =
      Except.error PyExc.templateError :=
  ⟨by decide, by decide, by decide, rfl⟩

/-- C5 (amended): provided no `submit()` call raises (no render error
among the due submissions' sends), `submit_queue()` calls `submit()`
exactly on the submissions with `prepared=True, sent=False, sending=False`
and a strictly past publish date, and afterwards — last call of the same
invocation, made exactly once — triggers the bounce scan
`check_bounces()`; when a `submit()` call does raise, the exception
propagates and the bounce scan is skipped. -/
theorem submit_queue_selection {σ : Type} (table : List SubmissionState)
    (t : Int) (subs : SubmissionState → List σ)
    (outcome : SubmissionState → σ → SendOutcome) :
    ((∀ s ∈ table.filter (fun s =>
          s.prepared && !s.sent && !s.sending &&
            decide (s.publish_date < t)),
        ∀ x ∈ subs s, outcome s x ≠ SendOutcome.renderError) →
      ((∀ s : SubmissionState,
          QueueEvent.submitCalled s ∈
              (Submission.submit_queue table t subs outcome).1 ↔
            (s ∈ table ∧ s.prepared = true ∧ s.sent = false ∧
              s.sending = false ∧ s.publish_date < t)) ∧
        (Submission.submit_queue table t subs outcome).1.getLast? =
          some QueueEvent.bounceScan ∧
        (Submission.submit_queue table t subs outcome).1.count
          QueueEvent.bounceScan = 1 ∧
        (Submission.submit_queue table t subs outcome).2 =
          Except.ok ())) ∧
    (∀ e : PyExc,
      (Submission.submit_queue table t subs outcome).2 = Except.error e →
        QueueEvent.bounceScan ∉
          (Submission.submit_queue table t subs outcome).1) := by
  constructor
  · intro hall
    have hdue : ∀ s ∈ table.filter (fun s =>
        s.prepared && !s.sent && !s.sending &&
          decide (s.publish_date < t)), s.publish_date < t := by
      intro s hs
      have hp := (List.mem_filter.mp hs).2
      simp only [Bool.and_eq_true, decide_eq_true_eq] at hp
      exact hp.2
    have hq := queueLoop_eq_map_of_ok t subs outcome
      (table.filter (fun s =>
        s.prepared && !s.sent && !s.sending &&
          decide (s.publish_date < t))) hdue hall
    have hsq : Submission.submit_queue table t subs outcome =
        ((table.filter (fun s =>
            s.prepared && !s.sent && !s.sending &&
              decide (s.publish_date < t))).map QueueEvent.submitCalled ++
          [QueueEvent.bounceScan], Except.ok ()) := by
      simp [Submission.submit_queue, hq]
    rw [hsq]
    refine ⟨fun s => ?_, ?_, ?_, rfl⟩
    · simp only [List.mem_append, List.mem_map, List.mem_filter,
        Bool.and_eq_true, Bool.not_eq_true', decide_eq_true_eq,
        List.mem_singleton, QueueEvent.submitCalled.injEq, reduceCtorEq,
        or_false]
      aesop
    · simp
    · have hz : (((table.filter (fun s =>
          s.prepared && !s.sent && !s.sending &&
            decide (s.publish_date < t))).map
          QueueEvent.submitCalled).count QueueEvent.bounceScan) = 0 := by
        rw [List.count_eq_zero]
        simp
      simp [List.count_append, hz]
  · intro e he
    have hnotin := bounceScan_not_in_queueLoop t subs outcome
      (table.filter (fun s =>
        s.prepared && !s.sent && !s.sending && decide (s.publish_date < t)))
    unfold Submission.submit_queue at he ⊢
    rcases hql : queueLoop t subs outcome (table.filter (fun s =>
        s.prepared && !s.sent && !s.sending &&
          decide (s.publish_date < t))) with ⟨evs, r⟩
    rw [hql] at hnotin
    cases r with
    | ok u => simp [hql] at he
    | error e1 =>
      simp only [hql]
      exact hnotin

/-- Witness for C5: a two-row table with all sends succeeding and only the
first row due; the queue submits exactly that row, finishes normally, and
ends with one bounce scan. -/
theorem submit_queue_selection_witness :
    (∀ s ∈ ([{ prepared := true, sent := false, sending := false,
               publish_date := 0 },
             { prepared := true, sent := true, sending := false,
               publish_date := 0 }] : List SubmissionState).filter (fun s =>
          s.prepared && !s.sent && !s.sending &&
            decide (s.publish_date < 1)),
      ∀ x ∈ ([7] : List Nat),
        (fun (_ : SubmissionState) (_ : Nat) => SendOutcome.ok) s x ≠
          SendOutcome.renderError) ∧
    QueueEvent.submitCalled
        { prepared := true, sent := false, sending := false,
          publish_date := 0 } ∈
      (Submission.submit_queue
        [{ prepared := true, sent := false, sending := false,
           publish_date := 0 },
         { prepared := true, sent := true, sending := false,
           publish_date := 0 }] 1 (fun _ => ([7] : List Nat))
        (fun _ _ => SendOutcome.ok)).1 ∧
    (Submission.submit_queue
        [{ prepared := true, sent := false, sending := false,
           publish_date := 0 },
         { prepared := true, sent := true, sending := false,
           publish_date := 0 }] 1 (fun _ => ([7] : List Nat))
        (fun _ _ => SendOutcome.ok)).1.getLast? =
      some QueueEvent.bounceScan ∧
    (Submission.submit_queue
        [{ prepared := true, sent := false, sending := false,
           publish_date := 0 },
         { prepared := true, sent := true, sending := false,
           publish_date := 0 }] 1 (fun _ => ([7] : List Nat))
        (fun _ _ => SendOutcome.ok)).2 = Except.ok () :=
  ⟨by decide,
    (((submit_queue_selection _ 1 _ _).1 (by decide)).1 _).mpr
      ⟨by decide, rfl, rfl, rfl, by decide⟩,
    ((submit_queue_selection _ 1 _ _).1 (by decide)).2.1,
    ((submit_queue_selection _ 1 _ _).1 (by decide)).2.2.2⟩

/-- C2: a created bounce is hard exactly when the recovered status starts
with `'5'` and differs from `'5.2.2'`; `'5.2.2'` itself is soft, every
other class-5 status is hard, every class-2 or class-4 status is soft, and
every `Bounce` row created by the message processor is classified that way
from its own `status_code`. -/
theorem bounce_hard_classification :
    (∀ status : List Char,
      bounceHard status = true ↔
        (List.isPrefixOf ['5'] status = true ∧ status ≠ MAILBOX_FULL)) ∧
    bounceHard MAILBOX_FULL = false ∧
    (∀ status : List Char,
      List.isPrefixOf ['5'] status = true → status ≠ MAILBOX_FULL →
        bounceHard status = true) ∧
    (∀ status : List Char,
      (List.isPrefixOf ['2'] status = true ∨
        List.isPrefixOf ['4'] status = true) → bounceHard status = false) ∧
    (∀ (users : List UserRow) (subs : List Subscription) (copyOk : Bool)
        (m : BounceMsg) (b : BounceRow),
      b ∈ (processMessage users subs copyOk m).bounces →
        b.hard = bounceHard b.status_code) := by
  have hiff : ∀ status : List Char,
      bounceHard status = true ↔
        (List.isPrefixOf ['5'] status = true ∧ status ≠ MAILBOX_FULL) := by
    intro status
    simp [bounceHard]
  refine ⟨hiff, by decide, fun status h5 hne => (hiff status).mpr ⟨h5, hne⟩,
    fun status h => ?_, fun users subs copyOk m b hb => ?_⟩
  · cases status with
    | nil => rcases h with h | h <;> simp [List.isPrefixOf] at h
    | cons c cs =>
      have h5 : List.isPrefixOf ['5'] (c :: cs) = false := by
        rcases h with h | h <;>
          (simp [List.isPrefixOf] at h ⊢; subst h; decide)
      simp [bounceHard, h5]
  · unfold processMessage at hb
    rcases hex : extractAddrStatus m with e | p
    · rw [hex] at hb
      simp at hb
    · rcases p with ⟨addr, status⟩
      rw [hex] at hb
      cases hts : truthyS addr && truthyS status with
      | false => simp [hts] at hb
      | true =>
        simp [hts] at hb
        rcases hb with ⟨s, hs, rfl⟩
        rfl

/-- Witness for C2: `5.1.1` is hard, `4.2.2` is soft, and a bounce row
actually produced by processing a concrete `5.1.1` delivery-status message
carries `hard = bounceHard status_code`. -/
theorem bounce_hard_classification_witness :
    bounceHard ("5.1.1".data) = true ∧
    bounceHard ("4.2.2".data) = false ∧
    ({ subscription := 7, hard := true, status_code := "5.1.1".data,
        content := "raw".data } : BounceRow).hard =
      bounceHard
        ({ subscription := 7, hard := true, status_code := "5.1.1".data,
            content := "raw".data } : BounceRow).status_code :=
  ⟨(bounce_hard_classification.1 _).mpr ⟨by decide, by decide⟩,
    bounce_hard_classification.2.2.2.1 _ (Or.inr (by decide)),
    bounce_hard_classification.2.2.2.2 []
      [{ pk := some 7, user := none,
         email_field := some ("bob@host.org".data), newsletter := 1,
         subscribed := true, unsubscribed := false, subscribe_date := none,
         unsubscribe_date := none }] true
      { toHeader := some ("bounce+bob=host.org@net".data),
        parts := [{ is_delivery_status := true,
                    subparts := [{ original_recipient := none,
                                   final_recipient := none,
                                   status := some ("5.1.1".data) }] }],
        raw := "raw".data } _ (by decide)⟩

/-- Helper for C4: the `num_hard_bounces` annotation vanishes exactly when
none of the subscription's bounce rows is hard. -/
theorem numHardBounces_eq_zero (bounces : List BounceRow)
    (s : Subscription) :
    numHardBounces bounces s = 0 ↔
      ∀ b ∈ bounces, s.pk = some b.subscription → b.hard = false := by
  unfold numHardBounces
  rw [List.sum_eq_zero_iff]
  constructor
  · intro h b hb hpk
    by_contra hh
    have hbmem : b ∈ bounces.filter (fun b => s.pk == some b.subscription) :=
      List.mem_filter.mpr ⟨hb, by simp [hpk]⟩
    have hzero := h _ (List.mem_map_of_mem _ hbmem)
    rw [Bool.not_eq_false] at hh
    simp [hh] at hzero
  · intro h x hx
    rcases List.mem_map.mp hx with ⟨b, hbmem, rfl⟩
    rcases List.mem_filter.mp hbmem with ⟨hb, hpk⟩
    have hhard : b.hard = false := h b hb (by simpa using hpk)
    simp [hhard]

/-- C4: the suppression query for a newsletter returns exactly the
subscriptions of that newsletter with `subscribed=True` and no hard bounce
row; soft bounces (and the absence of bounces) never suppress. -/
theorem suppression_query_membership (nl : Nat) (table : List Subscription)
    (bounces : List BounceRow) (s : Subscription) :
    s ∈ Newsletter.get_subscriptions nl table bounces ↔
      (s ∈ table ∧ s.newsletter = nl ∧ s.subscribed = true ∧
        ∀ b ∈ bounces, s.pk = some b.subscription → b.hard = false) := by
  unfold Newsletter.get_subscriptions SubscribedQuerySet.subscribed
  rw [List.mem_filter, List.mem_filter]
  simp only [Bool.and_eq_true, beq_iff_eq, Nat.beq_eq_true_eq]
  rw [numHardBounces_eq_zero]
  tauto

/-- Witness for C4: with one soft-bounced and one hard-bounced subscribed
subscription, the query keeps the former and drops the latter. -/
theorem suppression_query_membership_witness :
    ({ pk := some 1, user := none, email_field := some ("a@x".data),
       newsletter := 1, subscribed := true, unsubscribed := false,
       subscribe_date := none, unsubscribe_date := none } : Subscription) ∈
      Newsletter.get_subscriptions 1
        [{ pk := some 1, user := none, email_field := some ("a@x".data),
           newsletter := 1, subscribed := true, unsubscribed := false,
           subscribe_date := none, unsubscribe_date := none },
         { pk := some 2, user := none, email_field := some ("b@x".data),
           newsletter := 1, subscribed := true, unsubscribed := false,
           subscribe_date := none, unsubscribe_date := none }]
        [{ subscription := 1, hard := false, status_code := "4.2.2".data,
           content := [] },
         { subscription := 2, hard := true, status_code := "5.1.1".data,
           content := [] }] ∧
    ({ pk := some 2, user := none, email_field := some ("b@x".data),
       newsletter := 1, subscribed := true, unsubscribed := false,
       subscribe_date := none, unsubscribe_date := none } : Subscription) ∉
      Newsletter.get_subscriptions 1
        [{ pk := some 1, user := none, email_field := some ("a@x".data),
           newsletter := 1, subscribed := true, unsubscribed := false,
           subscribe_date := none, unsubscribe_date := none },
         { pk := some 2, user := none, email_field := some ("b@x".data),
           newsletter := 1, subscribed := true, unsubscribed := false,
           subscribe_date := none, unsubscribe_date := none }]
        [{ subscription := 1, hard := false, status_code := "4.2.2".data,
           content := [] },
         { subscription := 2, hard := true, status_code := "5.1.1".data,
           content := [] }] :=
  ⟨(suppression_query_membership 1 _ _ _).mpr
      ⟨by decide, rfl, rfl, by decide⟩,
    fun h => by
      have hr := (suppression_query_membership 1 _ _ _).mp h
      have hcontr := hr.2.2.2
        { subscription := 2, hard := true, status_code := "5.1.1".data,
          content := [] } (by decide) (by decide)
      simp at hcontr⟩

/-- C10: on a first save (`pk is None`), `Message.save` overwrites the
caller-assigned newsletter with `Newsletter.get_default()` — the first
newsletter in table order, or `None` when the table is empty — and on a
save of an already-persisted message it leaves every field, the newsletter
included, untouched. -/
theorem message_save_default_newsletter (m : MessageRow)
    (newsletters : List Nat) :
    (m.pk = none →
      Message.save m newsletters =
        { m with newsletter := Newsletter.get_default newsletters }) ∧
    (m.pk = none → newsletters = [] →
      (Message.save m newsletters).newsletter = none) ∧
    (∀ n rest, m.pk = none → newsletters = n :: rest →
      (Message.save m newsletters).newsletter = some n) ∧
    (∀ k, m.pk = some k → Message.save m newsletters = m) := by
  refine ⟨fun h => ?_, fun h he => ?_, fun n rest h he => ?_, fun k h => ?_⟩
  · simp [Message.save, h]
  · simp [Message.save, Newsletter.get_default, h, he]
  · simp [Message.save, Newsletter.get_default, h, he]
  · simp [Message.save, h]

/-- Witness for C10: a fresh message constructed under newsletter 9 is
persisted under default newsletter 4; a persisted message keeps its
newsletter. -/
theorem message_save_default_newsletter_witness :
    (Message.save { pk := none, newsletter := some 9, slug := [] } [4, 7] =
      { pk := none, newsletter := some 4, slug := [] }) ∧
    (Message.save { pk := some 3, newsletter := some 9, slug := [] } [4, 7] =
      { pk := some 3, newsletter := some 9, slug := [] }) :=
  ⟨(message_save_default_newsletter _ [4, 7]).1 rfl,
    (message_save_default_newsletter _ [4, 7]).2.2.2 3 rfl⟩

/-- Counterexample for C3: the claim reads "anything+user=domain@anything";
`"+bob=example.org@x"` has exactly that shape with an empty (but still
"anything") leading part and non-empty user and domain, yet the regex
(whose leading `[^+]+` group needs at least one character) does not match,
so decoding returns `none`. -/
theorem verp_match_counterexample :
    verpMatch ("+bob=example.org@x".data) = none ∧
    "+bob=example.org@x".data =
      [] ++ '+' :: ("bob".data ++ '=' ::
        ("example.org".data ++ '@' :: "x".data)) ∧
    "bob".data ≠ ([] : List Char) ∧
    "example.org".data ≠ ([] : List Char) ∧
    "x".data ≠ ([] : List Char) :=
  ⟨by decide, by decide, by decide, by decide, by decide⟩

/-- C3 (amended): VERP decoding succeeds, yielding `user@domain`, exactly
when the address decomposes as `prefixPart+user=domain@tail` with the
prefix part non-empty and free of `'+'`, the user non-empty and free of
`'='`, the domain non-empty and free of `'@'`, and a non-empty tail not
starting with a newline; every other address yields `none` (never an
error). -/
theorem verp_match_characterization (s u d : List Char) :
    verpMatch s = some (u, d) ↔
      ∃ a t, a ≠ [] ∧ '+' ∉ a ∧ u ≠ [] ∧ '=' ∉ u ∧ d ≠ [] ∧ '@' ∉ d ∧
        t ≠ [] ∧ t.head? ≠ some '\n' ∧
        s = a ++ '+' :: (u ++ '=' :: (d ++ '@' :: t)) := by
  constructor
  · intro h
    unfold verpMatch at h
    rcases hsp : splitFirst '+' s with _ | ⟨a, rest⟩
    · rw [hsp] at h
      exact absurd h (by simp)
    simp only [hsp] at h
    by_cases ha : a = []
    · rw [if_pos ha] at h
      exact absurd h (by simp)
    rw [if_neg ha] at h
    rcases hse : splitFirst '=' rest with _ | ⟨u', rest2⟩
    · rw [hse] at h
      exact absurd h (by simp)
    simp only [hse] at h
    by_cases hu : u' = []
    · rw [if_pos hu] at h
      exact absurd h (by simp)
    rw [if_neg hu] at h
    rcases hsa : splitFirst '@' rest2 with _ | ⟨d', t⟩
    · rw [hsa] at h
      exact absurd h (by simp)
    simp only [hsa] at h
    by_cases hd : d' = []
    · rw [if_pos hd] at h
      exact absurd h (by simp)
    rw [if_neg hd] at h
    rcases t with _ | ⟨c, t'⟩
    · exact absurd h (by simp)
    dsimp only at h
    by_cases hc : c = '\n'
    · rw [if_pos hc] at h
      exact absurd h (by simp)
    rw [if_neg hc] at h
    simp only [Option.some.injEq, Prod.mk.injEq] at h
    obtain ⟨h1, h2⟩ := h
    rcases (splitFirst_eq_some_iff '+' s a rest).mp hsp with ⟨hpa, rfl⟩
    rcases (splitFirst_eq_some_iff '=' rest u' rest2).mp hse with ⟨heu, rfl⟩
    rcases (splitFirst_eq_some_iff '@' rest2 d' (c :: t')).mp hsa
      with ⟨had, rfl⟩
    subst h1
    subst h2
    exact ⟨a, c :: t', ha, hpa, hu, heu, hd, had, by simp, by simp [hc], rfl⟩
  · rintro ⟨a, t, ha, hpa, hu, heu, hd, had, ht, hhd, rfl⟩
    unfold verpMatch
    simp only [(splitFirst_eq_some_iff '+' _ a
        (u ++ '=' :: (d ++ '@' :: t))).mpr ⟨hpa, rfl⟩]
    rw [if_neg ha]
    simp only [(splitFirst_eq_some_iff '=' _ u
        (d ++ '@' :: t)).mpr ⟨heu, rfl⟩]
    rw [if_neg hu]
    simp only [(splitFirst_eq_some_iff '@' _ d t).mpr ⟨had, rfl⟩]
    rw [if_neg hd]
    rcases t with _ | ⟨c, t'⟩
    · exact absurd rfl ht
    have hc : c ≠ '\n' := fun hcc => hhd (by simp [hcc])
    dsimp only
    rw [if_neg hc]

/-- Helper for C8: once `addr` is truthy, the subpart loop never changes
it. -/
theorem subpartLoop_fst_of_truthy (addr status : Option (List Char))
    (l : List DSSubpart) (h : truthyS addr = true) :
    (subpartLoop addr status l).1 = addr := by
  induction l generalizing status with
  | nil => rfl
  | cons sp rest ih =>
    have hstep : subpartAddrStep addr sp = addr := by
      unfold subpartAddrStep
      rw [if_pos h]
    simp only [subpartLoop, hstep]
    by_cases hs :
        (truthyS addr && truthyS (subpartStatusStep status sp)) = true
    · rw [if_pos hs]
    · rw [if_neg hs]
      exact ih _

/-- Counterexample for C8: the code replaces every `'rfc822;'` occurrence
(`addr.replace`), not just a leading address-type prefix — on
`Original-Recipient: a@rfc822;b` it recovers `a@b` where a leading-prefix
strip would leave `a@rfc822;b`; and a message without a `To` header makes
the scan raise a `TypeError` (`re.match(None)`) rather than being skipped
like other unrecoverable messages. -/
theorem bounce_recovery_counterexample :
    extractAddrStatus
        { toHeader := some ("x".data),
          parts := [{ is_delivery_status := true,
                      subparts := [{ original_recipient :=
                                       some ("a@rfc822;b".data),
                                     final_recipient := none,
                                     status := some ("5.1.1".data) }] }],
          raw := [] } =
      Except.ok (some ("a@b".data), some ("5.1.1".data)) ∧
    specStripLeadingRfc ("a@rfc822;b".data) = "a@rfc822;b".data ∧
    "a@b".data ≠ "a@rfc822;b".data ∧
    processMessage [] [] true { toHeader := none, parts := [], raw := [] } =
      { error := some PyExc.typeError, bounces := [], copyAttempted := false,
        deleted := false } ∧
    some PyExc.typeError ≠ (none : Option PyExc) :=
  ⟨rfl, by decide, by decide, by decide, by decide⟩

/-- C8 (amended): the recipient is recovered by two-tier fallback — a
successful VERP decode of the `To` header wins outright, regardless of any
delivery-status fields; otherwise a subpart's `Original-Recipient` is
preferred, with `Final-Recipient` consulted only when `Original-Recipient`
is absent, every `'rfc822;'` occurrence being removed from the value; and
a message whose recovered address or status is falsy is skipped entirely:
no bounce rows, no copy to the archive folder, no deletion flag. -/
theorem bounce_recovery_fallback :
    (∀ (m : BounceMsg) (t u d : List Char),
      m.toHeader = some t → verpMatch t = some (u, d) →
        ∃ st, extractAddrStatus m = Except.ok (some (u ++ '@' :: d), st)) ∧
    (∀ (addr : Option (List Char)) (sp : DSSubpart),
      truthyS addr = false →
      (∀ o, sp.original_recipient = some o →
        subpartAddrStep addr sp = some (rfcCleanVal (pyStrip o))) ∧
      (sp.original_recipient = none → ∀ f, sp.final_recipient = some f →
        subpartAddrStep addr sp = some (rfcCleanVal (pyStrip f)))) ∧
    (∀ (users : List UserRow) (subs : List Subscription) (copyOk : Bool)
        (m : BounceMsg) (a st : Option (List Char)),
      extractAddrStatus m = Except.ok (a, st) →
      (truthyS a && truthyS st) = false →
        processMessage users subs copyOk m =
          { error := none, bounces := [], copyAttempted := false,
            deleted := false }) := by
  refine ⟨fun m t u d hto hverp => ?_, fun addr sp hf => ⟨?_, ?_⟩,
    fun users subs copyOk m a st hex hfs => ?_⟩
  · have htr : truthyS (some (u ++ '@' :: d)) = true := by
      simp [truthyS]
    unfold extractAddrStatus
    simp only [hto, hverp]
    cases hfd : m.parts.find? (fun p => p.is_delivery_status) with
    | none => exact ⟨none, rfl⟩
    | some part =>
      dsimp only
      rcases hlp : subpartLoop (some (u ++ '@' :: d)) none part.subparts
        with ⟨a1, s1⟩
      have hfst := subpartLoop_fst_of_truthy (some (u ++ '@' :: d)) none
        part.subparts htr
      rw [hlp] at hfst
      simp only at hfst
      exact ⟨s1, by rw [hfst]⟩
  · intro o ho
    unfold subpartAddrStep
    rw [if_neg (by simp [hf]), ho]
  · intro hno f hfi
    unfold subpartAddrStep
    rw [if_neg (by simp [hf]), hno, hfi]
  · unfold processMessage
    simp only [hex]
    simp [hfs]

/-- Witness for C8: a VERP-decodable `To` wins; `Original-Recipient` is
taken over a present `Final-Recipient`; a message recovering neither
address nor status is skipped with no side effects. -/
theorem bounce_recovery_fallback_witness :
    (∃ st, extractAddrStatus
        { toHeader := some ("bounce+bob=host.org@net".data), parts := [],
          raw := [] } =
      Except.ok (some ("bob".data ++ '@' :: "host.org".data), st)) ∧
    subpartAddrStep none
        { original_recipient := some ("rfc822;carol@x.org".data),
          final_recipient := some ("rfc822;dave@x.org".data),
          status := none } =
      some (rfcCleanVal (pyStrip ("rfc822;carol@x.org".data))) ∧
    processMessage [] [] true
        { toHeader := some ("nope".data), parts := [], raw := [] } =
      { error := none, bounces := [], copyAttempted := false,
        deleted := false } :=
  ⟨bounce_recovery_fallback.1 _ _ _ _ rfl (by decide),
    (bounce_recovery_fallback.2.1 none _ (by decide)).1 _ rfl,
    bounce_recovery_fallback.2.2 [] [] true _ none none rfl (by decide)⟩

/-- Witness for C3: the canonical VERP address decodes to its embedded
recipient. -/
theorem verp_match_characterization_witness :
    verpMatch ("bounce+bob=example.org@example.net".data) =
      some ("bob".data, "example.org".data) :=
  (verp_match_characterization _ _ _).mpr
    ⟨"bounce".data, "example.net".data, by decide, by decide, by decide,
      by decide, by decide, by decide, by decide, by decide, by decide⟩

/-- Counterexample for C7: a save with both identities set fails with an
`AssertionError` (the `assert` statements of `Subscription.save`), which is
not the `ValidationError` named by the claim. -/
theorem subscription_save_error_class_counterexample :
    Subscription.save
        { pk := none, user := some 1, email_field := some ("a@b".data),
          newsletter := 1, subscribed := false, unsubscribed := false,
          subscribe_date := none, unsubscribe_date := none } none 0 =
      Except.error PyExc.assertionError ∧
    (Except.error PyExc.assertionError :
        Except PyExc Subscription) ≠ Except.error PyExc.validationError :=
  ⟨rfl, by simp⟩

/-- C7 (amended): `Subscription.save` enforces the identity invariant on
every persist — with both identities set, or neither truthily set, it
fails with an `AssertionError` before any write; with exactly one set (and
an existing row to diff against when the pk is set) the save succeeds. -/
theorem subscription_save_identity_invariant (s : Subscription)
    (old : Option Subscription) (t : Int) :
    (exactlyOneIdentity s = false →
      Subscription.save s old t = Except.error PyExc.assertionError) ∧
    (exactlyOneIdentity s = true →
      (s.pk.isSome = true → old.isSome = true) →
      ∃ r, Subscription.save s old t = Except.ok r) := by
  unfold exactlyOneIdentity Subscription.save
  cases hu : s.userTruthy <;> cases he : s.emailTruthy <;> simp [hu, he]
  all_goals intro hold
  all_goals cases hpk : s.pk with
    | none =>
      dsimp only
      split_ifs <;> exact ⟨_, rfl⟩
    | some k =>
      cases ho : old with
      | none =>
        rw [hpk] at hold
        simp [ho] at hold
      | some prev =>
        dsimp only
        split_ifs <;> exact ⟨_, rfl⟩

/-- Witness for C7: both-set fails with `AssertionError`; email-only
succeeds. -/
theorem subscription_save_identity_invariant_witness :
    (exactlyOneIdentity
        { pk := none, user := some 1, email_field := some ("a@b".data),
          newsletter := 1, subscribed := false, unsubscribed := false,
          subscribe_date := none, unsubscribe_date := none } = false ∧
      Subscription.save
        { pk := none, user := some 1, email_field := some ("a@b".data),
          newsletter := 1, subscribed := false, unsubscribed := false,
          subscribe_date := none, unsubscribe_date := none } none 0 =
        Except.error PyExc.assertionError) ∧
    (exactlyOneIdentity
        { pk := none, user := none, email_field := some ("a@b".data),
          newsletter := 1, subscribed := true, unsubscribed := false,
          subscribe_date := none, unsubscribe_date := none } = true ∧
      ∃ r, Subscription.save
        { pk := none, user := none, email_field := some ("a@b".data),
          newsletter := 1, subscribed := true, unsubscribed := false,
          subscribe_date := none, unsubscribe_date := none } none 0 =
        Except.ok r) :=
  ⟨⟨by decide, (subscription_save_identity_invariant _ none 0).1 (by decide)⟩,
    ⟨by decide,
      (subscription_save_identity_invariant _ none 0).2 (by decide)
        (by decide)⟩⟩

/-- C9: on a persisted subscription satisfying the identity invariant,
requesting `subscribe` a second time is a no-op: the second
`update('subscribe')`-and-save persists exactly the row the first one
persisted — same `subscribe_date`, `subscribed` and `unsubscribed`. -/
theorem subscribe_idempotent (rec : Subscription) (t1 t2 : Int)
    (hpk : rec.pk.isSome = true) (hid : exactlyOneIdentity rec = true) :
    ∃ r1 r2,
      Subscription.updatePersisted rec SubAction.subscribe t1 =
        Except.ok r1 ∧
      Subscription.updatePersisted r1 SubAction.subscribe t2 =
        Except.ok r2 ∧
      r2 = r1 ∧
      r2.subscribe_date = r1.subscribe_date ∧
      r2.subscribed = r1.subscribed ∧
      r2.unsubscribed = r1.unsubscribed := by
  obtain ⟨pk, user, email, nl, sub, unsub, sd, ud⟩ := rec
  cases pk with
  | none => simp at hpk
  | some k =>
    cases huv : user.isSome <;> cases hev : truthyS email <;>
      simp [exactlyOneIdentity, Subscription.userTruthy,
        Subscription.emailTruthy, huv, hev] at hid
    · -- user not set, email set
      cases sub with
      | false =>
        refine ⟨⟨some k, user, email, nl, true, false, some t1, ud⟩,
          ⟨some k, user, email, nl, true, false, some t1, ud⟩,
          ?_, ?_, rfl, rfl, rfl, rfl⟩ <;>
          simp [Subscription.updatePersisted, Subscription.update,
            Subscription.save, Subscription.doSubscribe,
            Subscription.userTruthy, Subscription.emailTruthy, huv, hev]
      | true =>
        refine ⟨⟨some k, user, email, nl, true, unsub, sd, ud⟩,
          ⟨some k, user, email, nl, true, unsub, sd, ud⟩,
          ?_, ?_, rfl, rfl, rfl, rfl⟩ <;>
          simp [Subscription.updatePersisted, Subscription.update,
            Subscription.save, Subscription.doSubscribe,
            Subscription.userTruthy, Subscription.emailTruthy, huv, hev]
    · -- user set, email not set
      cases sub with
      | false =>
        refine ⟨⟨some k, user, email, nl, true, false, some t1, ud⟩,
          ⟨some k, user, email, nl, true, false, some t1, ud⟩,
          ?_, ?_, rfl, rfl, rfl, rfl⟩ <;>
          simp [Subscription.updatePersisted, Subscription.update,
            Subscription.save, Subscription.doSubscribe,
            Subscription.userTruthy, Subscription.emailTruthy, huv, hev]
      | true =>
        refine ⟨⟨some k, user, email, nl, true, unsub, sd, ud⟩,
          ⟨some k, user, email, nl, true, unsub, sd, ud⟩,
          ?_, ?_, rfl, rfl, rfl, rfl⟩ <;>
          simp [Subscription.updatePersisted, Subscription.update,
            Subscription.save, Subscription.doSubscribe,
            Subscription.userTruthy, Subscription.emailTruthy, huv, hev]

/-- Witness for C9: a persisted, never-subscribed, email-only subscription
subscribed at time 10 and again at time 20 keeps the time-10 row. -/
theorem subscribe_idempotent_witness :
    (Option.isSome (some 1 : Option Nat) = true ∧
      exactlyOneIdentity
        { pk := some 1, user := none, email_field := some ("a@b".data),
          newsletter := 1, subscribed := false, unsubscribed := false,
          subscribe_date := none, unsubscribe_date := none } = true) ∧
    ∃ r1 r2,
      Subscription.updatePersisted
        { pk := some 1, user := none, email_field := some ("a@b".data),
          newsletter := 1, subscribed := false, unsubscribed := false,
          subscribe_date := none, unsubscribe_date := none }
        SubAction.subscribe 10 = Except.ok r1 ∧
      Subscription.updatePersisted r1 SubAction.subscribe 20 =
        Except.ok r2 ∧
      r2 = r1 ∧
      r2.subscribe_date = r1.subscribe_date ∧
      r2.subscribed = r1.subscribed ∧
      r2.unsubscribed = r1.unsubscribed :=
  ⟨⟨by decide, by decide⟩,
    subscribe_idempotent _ 10 20 (by decide) (by decide)⟩
